import Mathlib

/-!
Verification of the `svg2img.py` conversion pipeline.

The Python source is shallowly embedded: bytes are `Nat` lists (each element
a byte value), text is a `Nat` list of Unicode code points, the filesystem is
a partial map from paths to byte lists, and the browser-driving code is
modelled as a trace-producing function over an environment that records which
external operations fail.
-/

set_option maxRecDepth 10000

namespace Svg2Img

/-! ### Base64 (Python `base64.b64encode`) -/

/-- The standard base64 alphabet, index `s` holding the character for the
six-bit value `s`. -/
def b64table : List Char :=
  ['A', 'B', 'C', 'D', 'E', 'F', 'G', 'H', 'I', 'J', 'K', 'L', 'M',
   'N', 'O', 'P', 'Q', 'R', 'S', 'T', 'U', 'V', 'W', 'X', 'Y', 'Z',
   'a', 'b', 'c', 'd', 'e', 'f', 'g', 'h', 'i', 'j', 'k', 'l', 'm',
   'n', 'o', 'p', 'q', 'r', 's', 't', 'u', 'v', 'w', 'x', 'y', 'z',
   '0', '1', '2', '3', '4', '5', '6', '7', '8', '9', '+', '/']

/-- Character for a six-bit value. -/
def b64char (s : Nat) : Char := b64table.getD s 'A'

/-- Six-bit value of an alphabet character (`none` for a non-alphabet
character). -/
def b64val (c : Char) : Option Nat := b64table.findIdx? (· = c)

/-- Base64 encoding of a byte list, with `=` padding, as produced by
`base64.b64encode`. -/
def encodeB64 : List Nat → List Char
  | [] => []
  | [a] => [b64char (a / 4), b64char (a % 4 * 16), '=', '=']
  | [a, b] => [b64char (a / 4), b64char (a % 4 * 16 + b / 16),
               b64char (b % 16 * 4), '=']
  | a :: b :: d :: rest =>
      b64char (a / 4) :: b64char (a % 4 * 16 + b / 16) ::
      b64char (b % 16 * 4 + d / 64) :: b64char (d % 64) :: encodeB64 rest

/-- Strict base64 decoding, the mathematical inverse of `encodeB64`. -/
def decodeB64 : List Char → Option (List Nat)
  | [] => some []
  | c0 :: c1 :: c2 :: c3 :: rest =>
      match b64val c0, b64val c1 with
      | some s0, some s1 =>
          if c2 = '=' then
            if c3 = '=' ∧ rest = [] ∧ s1 % 16 = 0 then
              some [s0 * 4 + s1 / 16]
            else none
          else
            match b64val c2 with
            | some s2 =>
                if c3 = '=' then
                  if rest = [] ∧ s2 % 4 = 0 then
                    some [s0 * 4 + s1 / 16, s1 % 16 * 16 + s2 / 4]
                  else none
                else
                  match b64val c3 with
                  | some s3 =>
                      (decodeB64 rest).map
                        (fun t => (s0 * 4 + s1 / 16) :: (s1 % 16 * 16 + s2 / 4) ::
                                  (s2 % 4 * 64 + s3) :: t)
                  | none => none
            | none => none
      | _, _ => none
  | _ => none

theorem b64val_b64char : ∀ s, s < 64 → b64val (b64char s) = some s := by decide

theorem b64char_ne_pad : ∀ s, s < 64 → b64char s ≠ '=' := by decide

theorem decodeB64_encodeB64 (bs : List Nat) (h : ∀ b ∈ bs, b < 256) :
    decodeB64 (encodeB64 bs) = some bs := by
  induction bs using encodeB64.induct with
  | case1 => simp [encodeB64, decodeB64]
  | case2 a =>
      have ha : a < 256 := h a (by simp)
      have h0 : a / 4 < 64 := by omega
      have h1 : a % 4 * 16 < 64 := by omega
      have e0 : a % 4 * 16 % 16 = 0 := by omega
      simp [encodeB64, decodeB64, b64val_b64char _ h0, b64val_b64char _ h1, e0]
      omega
  | case3 a b =>
      have ha : a < 256 := h a (by simp)
      have hb : b < 256 := h b (by simp)
      have h0 : a / 4 < 64 := by omega
      have h1 : a % 4 * 16 + b / 16 < 64 := by omega
      have h2 : b % 16 * 4 < 64 := by omega
      have e0 : b % 16 * 4 % 4 = 0 := by omega
      simp [encodeB64, decodeB64, b64val_b64char _ h0, b64val_b64char _ h1,
        b64val_b64char _ h2, b64char_ne_pad _ h2, e0]
      constructor
      · omega
      · omega
  | case4 a b d rest ih =>
      have ha : a < 256 := h a (by simp)
      have hb : b < 256 := h b (by simp)
      have hd : d < 256 := h d (by simp)
      have h0 : a / 4 < 64 := by omega
      have h1 : a % 4 * 16 + b / 16 < 64 := by omega
      have h2 : b % 16 * 4 + d / 64 < 64 := by omega
      have h3 : d % 64 < 64 := by omega
      have ih' := ih (fun x hx => h x (by simp [hx]))
      simp [encodeB64, decodeB64, b64val_b64char _ h0, b64val_b64char _ h1,
        b64val_b64char _ h2, b64val_b64char _ h3,
        b64char_ne_pad _ h2, b64char_ne_pad _ h3, ih']
      refine ⟨by omega, by omega, by omega⟩

/-! ### UTF-8 (Python text-mode reading with `encoding='utf-8'`, and
`str.encode('utf-8')`) -/

def isCont (b : Nat) : Bool := 128 ≤ b && b < 192
def cp2 (b0 b1 : Nat) : Nat := (b0 - 192) * 64 + (b1 - 128)
def cp3 (b0 b1 b2 : Nat) : Nat := (b0 - 224) * 4096 + (b1 - 128) * 64 + (b2 - 128)
def cp4 (b0 b1 b2 b3 : Nat) : Nat :=
  (b0 - 240) * 262144 + (b1 - 128) * 4096 + (b2 - 128) * 64 + (b3 - 128)
def valid3 (c : Nat) : Bool := 2048 ≤ c && !(55296 ≤ c && c < 57344)
def valid4 (c : Nat) : Bool := 65536 ≤ c && c < 1114112

def encodeUtf8Char (c : Nat) : List Nat :=
  if c < 128 then [c]
  else if c < 2048 then [192 + c / 64, 128 + c % 64]
  else if c < 65536 then [224 + c / 4096, 128 + c / 64 % 64, 128 + c % 64]
  else [240 + c / 262144, 128 + c / 4096 % 64, 128 + c / 64 % 64, 128 + c % 64]

def encodeUtf8 : List Nat → List Nat
  | [] => []
  | c :: cs => encodeUtf8Char c ++ encodeUtf8 cs

def utf8Step : List Nat → Option (Nat × List Nat)
  | [] => none
  | b0 :: rest =>
      if b0 < 128 then some (b0, rest)
      else if b0 < 194 then none
      else if b0 < 224 then
        match rest with
        | b1 :: rest2 => if isCont b1 then some (cp2 b0 b1, rest2) else none
        | [] => none
      else if b0 < 240 then
        match rest with
        | b1 :: b2 :: rest2 =>
            if isCont b1 && isCont b2 && valid3 (cp3 b0 b1 b2) then
              some (cp3 b0 b1 b2, rest2)
            else none
        | _ => none
      else if b0 < 245 then
        match rest with
        | b1 :: b2 :: b3 :: rest2 =>
            if isCont b1 && isCont b2 && isCont b3 && valid4 (cp4 b0 b1 b2 b3) then
              some (cp4 b0 b1 b2 b3, rest2)
            else none
        | _ => none
      else none

theorem utf8Step_length : ∀ bs c rem, utf8Step bs = some (c, rem) →
    rem.length < bs.length := by
  intro bs c rem h
  unfold utf8Step at h
  repeat' split at h
  all_goals simp_all
  all_goals omega

theorem encodeChar1 (c : Nat) (h : c < 128) : encodeUtf8Char c = [c] := by
  unfold encodeUtf8Char
  rw [if_pos h]

theorem encodeChar2 (b0 b1 : Nat) (h0 : 194 ≤ b0) (h1 : b0 < 224)
    (hc : isCont b1 = true) : encodeUtf8Char (cp2 b0 b1) = [b0, b1] := by
  have hb1 : 128 ≤ b1 ∧ b1 < 192 := by simpa [isCont] using hc
  unfold encodeUtf8Char cp2
  rw [if_neg (by omega), if_pos (by omega)]
  simp only [List.cons.injEq, and_true]
  omega

theorem encodeChar3 (b0 b1 b2 : Nat) (h0 : 224 ≤ b0) (h1 : b0 < 240)
    (hc1 : isCont b1 = true) (hc2 : isCont b2 = true)
    (hv : valid3 (cp3 b0 b1 b2) = true) :
    encodeUtf8Char (cp3 b0 b1 b2) = [b0, b1, b2] := by
  have hb1 : 128 ≤ b1 ∧ b1 < 192 := by simpa [isCont] using hc1
  have hb2 : 128 ≤ b2 ∧ b2 < 192 := by simpa [isCont] using hc2
  have hv' : 2048 ≤ cp3 b0 b1 b2 := by
    have := hv
    unfold valid3 at this
    simp at this
    exact this.1
  unfold cp3 at *
  unfold encodeUtf8Char
  rw [if_neg (by omega), if_neg (by omega), if_pos (by omega)]
  simp only [List.cons.injEq, and_true]
  refine ⟨by omega, by omega, by omega⟩

theorem encodeChar4 (b0 b1 b2 b3 : Nat) (h0 : 240 ≤ b0) (h1 : b0 < 245)
    (hc1 : isCont b1 = true) (hc2 : isCont b2 = true) (hc3 : isCont b3 = true)
    (hv : valid4 (cp4 b0 b1 b2 b3) = true) :
    encodeUtf8Char (cp4 b0 b1 b2 b3) = [b0, b1, b2, b3] := by
  have hb1 : 128 ≤ b1 ∧ b1 < 192 := by simpa [isCont] using hc1
  have hb2 : 128 ≤ b2 ∧ b2 < 192 := by simpa [isCont] using hc2
  have hb3 : 128 ≤ b3 ∧ b3 < 192 := by simpa [isCont] using hc3
  have hv' : 65536 ≤ cp4 b0 b1 b2 b3 := by
    have := hv
    unfold valid4 at this
    simp at this
    exact this.1
  unfold cp4 at *
  unfold encodeUtf8Char
  rw [if_neg (by omega), if_neg (by omega), if_neg (by omega)]
  simp only [List.cons.injEq, and_true]
  refine ⟨by omega, by omega, by omega, by omega⟩

theorem utf8Step_encode : ∀ bs c rem, utf8Step bs = some (c, rem) →
    encodeUtf8Char c ++ rem = bs := by
  intro bs c rem h
  unfold utf8Step at h
  repeat' split at h
  all_goals first
    | exact Option.noConfusion h
    | (simp only [Option.some.injEq, Prod.mk.injEq] at h
       obtain ⟨hc, hrem⟩ := h
       subst hc
       subst hrem
       (try simp only [Bool.and_eq_true] at *)
       first
         | (rw [encodeChar1 _ (by assumption)]; rfl)
         | (rw [encodeChar2 _ _ (by omega) (by omega) (by assumption)]; rfl)
         | (rw [encodeChar3 _ _ _ (by omega) (by omega) (by tauto) (by tauto)
               (by tauto)]; rfl)
         | (rw [encodeChar4 _ _ _ _ (by omega) (by omega) (by tauto) (by tauto)
               (by tauto) (by tauto)]; rfl))

def decodeUtf8Fuel : Nat → List Nat → Option (List Nat)
  | _, [] => some []
  | 0, _ :: _ => none
  | fuel + 1, b0 :: rest =>
      match utf8Step (b0 :: rest) with
      | some (c, rem) => (decodeUtf8Fuel fuel rem).map (c :: ·)
      | none => none

/-- Strict UTF-8 decoding of a byte list to code points. -/
def decodeUtf8 (bs : List Nat) : Option (List Nat) := decodeUtf8Fuel bs.length bs

example : decodeUtf8 [195, 169] = some [233] := by decide
example : decodeUtf8 [226, 130, 172] = some [8364] := by decide
example : decodeUtf8 [240, 159, 152, 128] = some [128512] := by decide
example : decodeUtf8 [237, 160, 128] = none := by decide
example : decodeUtf8 [192, 128] = none := by decide
example : decodeUtf8 [255] = none := by decide
example : decodeUtf8 [104, 105] = some [104, 105] := by decide

theorem encodeUtf8_decodeUtf8Fuel : ∀ fuel bs cs, bs.length ≤ fuel →
    decodeUtf8Fuel fuel bs = some cs → encodeUtf8 cs = bs := by
  intro fuel
  induction fuel with
  | zero =>
      intro bs cs hlen h
      rcases bs with _ | ⟨b, rest⟩
      · simp only [decodeUtf8Fuel, Option.some.injEq] at h
        subst h
        rfl
      · simp at hlen
  | succ fuel ih =>
      intro bs cs hlen h
      rcases bs with _ | ⟨b0, rest⟩
      · simp only [decodeUtf8Fuel, Option.some.injEq] at h
        subst h
        rfl
      · rcases hstep : utf8Step (b0 :: rest) with _ | ⟨c, rem⟩
        · rw [decodeUtf8Fuel, hstep] at h
          exact absurd h (by simp)
        · rw [decodeUtf8Fuel, hstep] at h
          rcases Option.map_eq_some'.mp h with ⟨cs', hdec, hcs⟩
          subst hcs
          have hlt := utf8Step_length _ _ _ hstep
          have : rem.length ≤ fuel := by
            simp only [List.length_cons] at hlt hlen
            omega
          simp only [encodeUtf8, ih rem cs' this hdec]
          exact utf8Step_encode _ _ _ hstep

theorem encodeUtf8_decodeUtf8 (bs cs : List Nat) (h : decodeUtf8 bs = some cs) :
    encodeUtf8 cs = bs :=
  encodeUtf8_decodeUtf8Fuel bs.length bs cs le_rfl h

/-! ### Universal newlines

Python's text mode (`open(path, 'r', encoding='utf-8')` with the default
`newline=None`) translates `\r\n` and lone `\r` in the decoded stream
to `\n`. -/

/-- Universal-newline translation on code points: CR LF and lone CR both
become LF. -/
def normNewlines : List Nat → List Nat
  | [] => []
  | [c] => if c = 13 then [10] else [c]
  | c :: c2 :: rest =>
      if c = 13 then
        if c2 = 10 then 10 :: normNewlines rest
        else 10 :: normNewlines (c2 :: rest)
      else c :: normNewlines (c2 :: rest)

theorem normNewlines_eq_self : ∀ cs : List Nat, 13 ∉ cs →
    normNewlines cs = cs := by
  intro cs
  induction cs with
  | nil => intro _; rfl
  | cons c rest ih =>
      intro h
      have hc : ¬(c = 13) := fun e => h (by simp [e])
      have ht : (13 : Nat) ∉ rest := fun m => h (by simp [m])
      rcases rest with _ | ⟨c2, rest2⟩
      · simp [normNewlines, hc]
      · simp [normNewlines, hc, ih ht]

/-! ### The Encoder: `svg_to_img_data_uri` (svg2img.py lines 11-34)

The filesystem is an abstract partial map from paths to raw byte lists.
Python exceptions raised by the function are an `Except` error result. -/

/-- Abstract filesystem: path to file bytes, `none` when the path does not
exist. -/
abbrev FS := String → Option (List Nat)

/-- The Python exceptions the encoder can raise. -/
inductive PyError where
  | fileNotFound
  | unicodeDecode
deriving DecidableEq

/-- The fixed media-type prefix of the returned data URI
(svg2img.py line 34). -/
def uriHead : String := "data:image/svg+xml;charset=utf-8;base64,"

/-- `svg_to_img_data_uri` (svg2img.py lines 25-34): raise `FileNotFoundError`
if the path does not exist; otherwise read the file in text mode as UTF-8
(raising `UnicodeDecodeError` on undecodable bytes, and applying
universal-newline translation), re-encode the text as UTF-8 bytes, base64
them, and prepend the fixed prefix. -/
def svg_to_img_data_uri (fs : FS) (svg_file_path : String) :
    Except PyError String :=
  match fs svg_file_path with
  | none => .error .fileNotFound
  | some bytes =>
      match decodeUtf8 bytes with
      | none => .error .unicodeDecode
      | some svg_content =>
          let svg_bytes := encodeUtf8 (normNewlines svg_content)
          let base64_encoded := String.mk (encodeB64 svg_bytes)
          .ok (uriHead ++ base64_encoded)

/-- The file `<svg>\r\n</svg>`: a valid SVG whose bytes contain a CR LF
sequence. -/
def crlfBytes : List Nat :=
  [60, 115, 118, 103, 62, 13, 10, 60, 47, 115, 118, 103, 62]

/-- A filesystem holding only `a.svg` with `crlfBytes` content. -/
def crlfFS : FS := fun p => if p = "a.svg" then some crlfBytes else none

/-- C3 counterexample: on the existing SVG file `a.svg` with bytes
`<svg>\r\n</svg>`, the encoder's output is the prefix plus the base64 of the
newline-normalized bytes `<svg>\n</svg>`; decoding that payload does not give
back the original bytes, so the round trip of C3 is not lossless. -/
theorem C3_crlf_not_lossless :
    crlfFS "a.svg" = some crlfBytes ∧
    svg_to_img_data_uri crlfFS "a.svg" =
      .ok (uriHead ++ "PHN2Zz4KPC9zdmc+") ∧
    decodeB64 "PHN2Zz4KPC9zdmc+".data =
      some [60, 115, 118, 103, 62, 10, 60, 47, 115, 118, 103, 62] ∧
    decodeB64 "PHN2Zz4KPC9zdmc+".data ≠ some crlfBytes := by
  refine ⟨by decide, ?_, by decide, by decide⟩
  rfl

/-- C3 (amended): for every existing file whose bytes decode as UTF-8 and
whose decoded text contains no carriage return, `svg_to_img_data_uri`
returns the fixed SVG data-URI prefix followed by a base64 payload, and
decoding that payload yields exactly the original bytes of the file. -/
theorem C3_roundtrip (fs : FS) (p : String) (bs cps : List Nat)
    (hfile : fs p = some bs) (hbytes : ∀ b ∈ bs, b < 256)
    (hdec : decodeUtf8 bs = some cps) (hnoCR : (13 : Nat) ∉ cps) :
    svg_to_img_data_uri fs p = .ok (uriHead ++ String.mk (encodeB64 bs)) ∧
    decodeB64 (encodeB64 bs) = some bs := by
  have hnorm : normNewlines cps = cps := normNewlines_eq_self _ hnoCR
  have henc : encodeUtf8 cps = bs := encodeUtf8_decodeUtf8 _ _ hdec
  constructor
  · simp [svg_to_img_data_uri, hfile, hdec, hnorm, henc]
  · exact decodeB64_encodeB64 bs hbytes

/-- C3 witness: the amended round-trip theorem applied to a concrete
filesystem holding `b.svg` with bytes `hi`. -/
theorem C3_roundtrip_witness :
    svg_to_img_data_uri
        (fun p => if p = "b.svg" then some [104, 105] else none) "b.svg" =
      .ok (uriHead ++ String.mk (encodeB64 [104, 105])) ∧
    decodeB64 (encodeB64 [104, 105]) = some [104, 105] :=
  C3_roundtrip (fun p => if p = "b.svg" then some [104, 105] else none)
    "b.svg" [104, 105] [104, 105] (by simp) (by decide) (by decide) (by decide)

/-- C4: for every path that does not exist in the filesystem,
`svg_to_img_data_uri` fails with `FileNotFoundError`, returning no data URI
(so nothing is read and no HTML document can be generated from it). -/
theorem C4_missing_file (fs : FS) (p : String) (h : fs p = none) :
    svg_to_img_data_uri fs p = .error .fileNotFound := by
  simp [svg_to_img_data_uri, h]

/-- C4 witness: the missing-file theorem applied to the empty filesystem. -/
theorem C4_missing_file_witness :
    svg_to_img_data_uri (fun _ => none) "missing.svg" =
      .error .fileNotFound :=
  C4_missing_file (fun _ => none) "missing.svg" rfl

/-- C10: for every existing file whose bytes are not valid UTF-8, the
encoder raises `UnicodeDecodeError` and returns no data URI. -/
theorem C10_invalid_utf8 (fs : FS) (p : String) (bs : List Nat)
    (h1 : fs p = some bs) (h2 : decodeUtf8 bs = none) :
    svg_to_img_data_uri fs p = .error .unicodeDecode := by
  simp [svg_to_img_data_uri, h1, h2]

/-- C10 witness: the byte `0xFF` alone is not valid UTF-8, and the encoder
rejects a file holding it. -/
theorem C10_invalid_utf8_witness :
    svg_to_img_data_uri
        (fun p => if p = "bad.svg" then some [255] else none) "bad.svg" =
      .error .unicodeDecode :=
  C10_invalid_utf8 (fun p => if p = "bad.svg" then some [255] else none)
    "bad.svg" [255] (by simp) (by decide)

/-! ### The Document Builder: `generate_html` (svg2img.py lines 36-111)

The produced HTML document is modelled as the string the Python f-string
renders (the file write itself carries no further logic). Literal braces
and apostrophes of the template are written with `\x7b`, `\x7d` and `\x27`
escapes. -/

/-- Python's `str.upper()` for the format string (ASCII case mapping). -/
def pyUpperChar (c : Char) : Char :=
  if 'a' ≤ c ∧ c ≤ 'z' then Char.ofNat (c.toNat - 32) else c

/-- `output_format.upper()` from the template's title line. -/
def pyUpper (s : String) : String := String.mk (s.data.map pyUpperChar)

/-- svg2img.py line 58. -/
def mime (output_format : String) : String :=
  if output_format = "png" then "image/png" else "image/jpeg"

/-- svg2img.py line 59. -/
def quality (output_format : String) : String :=
  if output_format = "png" then "undefined" else "0.95"

/-- svg2img.py line 60: the visible save-button label of the document. -/
def button_text (output_format : String) : String :=
  if output_format = "png" then "PNGとして保存" else "JPGとして保存"

/-- The white-background fill statement of svg2img.py line 67. -/
def whiteFill : String :=
  "ctx.fillStyle = \x27#ffffff\x27; ctx.fillRect(0, 0, canvas.width, canvas.height);"

/-- svg2img.py lines 66-69. -/
def fill_background (output_format : String) : String :=
  if output_format = "jpg" then whiteFill else ""

/-- The second part of the `toDataURL` argument list on svg2img.py line 97:
`{', ' + quality if output_format == "jpg" else ''}`. -/
def toDataURL_arg2 (output_format : String) : String :=
  if output_format = "jpg" then ", " ++ quality output_format else ""

/-- The HTML document `generate_html` renders and writes
(svg2img.py lines 71-109), line by line. -/
def html_content (data_uri output_filename output_format : String) : String :=
  "<!DOCTYPE html>\n" ++
  "<html lang=\"ja\">\n" ++
  "<head>\n" ++
  "  <meta charset=\"UTF-8\">\n" ++
  "  <title>SVG to " ++ pyUpper output_format ++ "</title>\n" ++
  "</head>\n" ++
  "<body>\n" ++
  "  <!-- \n" ++
  "    注意：\n" ++
  "    この <img> タグの width=\"400\" は表示上のスケーリングにのみ影響し、\n" ++
  "    実際に出力される画像サイズ（canvasのサイズ）は SVG の元のサイズに依存します。\n" ++
  "    canvas.width / height は image の自然サイズ（intrinsic size）を使用。\n" ++
  "  -->\n" ++
  "  <img src=\"" ++ data_uri ++ "\" alt=\"SVG Image\" width=\"400\">\n" ++
  "  <script>\n" ++
  "    function download() \x7b\n" ++
  "      const img = document.querySelector(\x27img\x27);\n" ++
  "      const canvas = document.createElement(\x27canvas\x27);\n" ++
  "      const ctx = canvas.getContext(\x272d\x27);\n" ++
  "\n" ++
  "      const image = new Image();\n" ++
  "      image.onload = function () \x7b\n" ++
  "        canvas.width = image.width;\n" ++
  "        canvas.height = image.height;\n" ++
  "        " ++ fill_background output_format ++ "\n" ++
  "        ctx.drawImage(image, 0, 0);\n" ++
  "        const data = " ++ "canvas.toDataURL(" ++ "\"" ++
    mime output_format ++ "\"" ++ toDataURL_arg2 output_format ++ ")" ++
    ";\n" ++
  "        const a = document.createElement(\x27a\x27);\n" ++
  "        a.href = data;\n" ++
  "        a.download = \x27" ++ output_filename ++ "\x27;\n" ++
  "        a.click();\n" ++
  "      \x7d;\n" ++
  "      image.src = img.src;\n" ++
  "    \x7d\n" ++
  "  </script>\n" ++
  "  " ++ "<button onclick=\"download()\">" ++ button_text output_format ++
    "</button>" ++ "\n" ++
  "</body>\n" ++
  "</html>\n"

/-! ### The Renderer's button lookup (svg2img.py lines 139-150) -/

/-- svg2img.py line 140: the label `auto_download` expects. -/
def auto_download_button_text (output_format : String) : String :=
  if output_format = "png" then "PNGとして保存" else "JPGとして保存"

/-- svg2img.py line 150: the text selector `auto_download` clicks. -/
def click_selector (output_format : String) : String :=
  "text=" ++ auto_download_button_text output_format

/-! Fixed stretches of the template between its interpolation slots, used to
state where each generated fragment sits inside the document. -/

def htmlA : String :=
  "<!DOCTYPE html>\n" ++
  "<html lang=\"ja\">\n" ++
  "<head>\n" ++
  "  <meta charset=\"UTF-8\">\n" ++
  "  <title>SVG to "

def htmlB : String :=
  "</title>\n" ++
  "</head>\n" ++
  "<body>\n" ++
  "  <!-- \n" ++
  "    注意：\n" ++
  "    この <img> タグの width=\"400\" は表示上のスケーリングにのみ影響し、\n" ++
  "    実際に出力される画像サイズ（canvasのサイズ）は SVG の元のサイズに依存します。\n" ++
  "    canvas.width / height は image の自然サイズ（intrinsic size）を使用。\n" ++
  "  -->\n" ++
  "  <img src=\""

def htmlC : String :=
  "\" alt=\"SVG Image\" width=\"400\">\n" ++
  "  <script>\n" ++
  "    function download() \x7b\n" ++
  "      const img = document.querySelector(\x27img\x27);\n" ++
  "      const canvas = document.createElement(\x27canvas\x27);\n" ++
  "      const ctx = canvas.getContext(\x272d\x27);\n" ++
  "\n" ++
  "      const image = new Image();\n" ++
  "      image.onload = function () \x7b\n" ++
  "        canvas.width = image.width;\n" ++
  "        canvas.height = image.height;\n" ++
  "        "

def htmlD : String :=
  "\n" ++
  "        ctx.drawImage(image, 0, 0);\n" ++
  "        const data = "

def htmlE : String :=
  ";\n" ++
  "        const a = document.createElement(\x27a\x27);\n" ++
  "        a.href = data;\n" ++
  "        a.download = \x27"

def htmlF : String :=
  "\x27;\n" ++
  "        a.click();\n" ++
  "      \x7d;\n" ++
  "      image.src = img.src;\n" ++
  "    \x7d\n" ++
  "  </script>\n" ++
  "  "

def htmlG : String :=
  "\n" ++
  "</body>\n" ++
  "</html>\n"

/-- The generated document decomposed around its interpolation slots. -/
theorem html_content_parts (d f fmt : String) :
    html_content d f fmt =
      htmlA ++ pyUpper fmt ++ htmlB ++ d ++ htmlC ++ fill_background fmt ++
      htmlD ++ ("canvas.toDataURL(" ++ "\"" ++ mime fmt ++ "\"" ++
        toDataURL_arg2 fmt ++ ")") ++ htmlE ++ f ++ htmlF ++
      ("<button onclick=\"download()\">" ++ button_text fmt ++ "</button>") ++
      htmlG := by
  simp only [html_content, htmlA, htmlB, htmlC, htmlD, htmlE, htmlF, htmlG,
    ← String.append_assoc]

/-- C5: the document of `generate_html` carries the white-background fill
(`ctx.fillStyle = '#ffffff'; ctx.fillRect(...)`) exactly when the target
format is `jpg`: the fill slot renders the fill statement iff the format is
`jpg`, the jpg document contains the statement, and for `png` the slot is
empty so transparency is preserved. -/
theorem C5_white_fill_iff_jpg :
    (∀ fmt, fill_background fmt = whiteFill ↔ fmt = "jpg") ∧
    (∀ d f, ∃ pre post,
      html_content d f "jpg" = pre ++ whiteFill ++ post) ∧
    fill_background "png" = "" := by
  refine ⟨?_, ?_, by simp [fill_background]⟩
  · intro fmt
    by_cases h : fmt = "jpg"
    · subst h
      exact iff_of_true (by simp [fill_background]) rfl
    · rw [fill_background, if_neg h]
      exact iff_of_false (by decide) h
  · intro d f
    rw [html_content_parts]
    have hf : fill_background "jpg" = whiteFill := by simp [fill_background]
    rw [hf]
    refine ⟨htmlA ++ pyUpper "jpg" ++ htmlB ++ d ++ htmlC,
      htmlD ++ ("canvas.toDataURL(" ++ "\"" ++ mime "jpg" ++ "\"" ++
        toDataURL_arg2 "jpg" ++ ")") ++ htmlE ++ f ++ htmlF ++
        ("<button onclick=\"download()\">" ++ button_text "jpg" ++
          "</button>") ++ htmlG, ?_⟩
    simp only [← String.append_assoc]

/-- C6: the canvas export call of the generated document is
`canvas.toDataURL("image/png")` — media type `image/png`, no quality
argument — when the target is `png`, and
`canvas.toDataURL("image/jpeg", 0.95)` — media type `image/jpeg` with the
fixed quality `0.95` — when the target is `jpg`. -/
theorem C6_toDataURL_media_and_quality :
    mime "png" = "image/png" ∧ toDataURL_arg2 "png" = "" ∧
    mime "jpg" = "image/jpeg" ∧ toDataURL_arg2 "jpg" = ", 0.95" ∧
    (∀ d f, ∃ pre post, html_content d f "png" =
      pre ++ "canvas.toDataURL(\"image/png\")" ++ post) ∧
    (∀ d f, ∃ pre post, html_content d f "jpg" =
      pre ++ "canvas.toDataURL(\"image/jpeg\", 0.95)" ++ post) := by
  refine ⟨by decide, by decide, by decide, by decide, ?_, ?_⟩
  · intro d f
    rw [html_content_parts]
    have hm : ("canvas.toDataURL(" ++ "\"" ++ mime "png" ++ "\"" ++
        toDataURL_arg2 "png" ++ ")") = "canvas.toDataURL(\"image/png\")" := by
      decide
    rw [hm]
    refine ⟨htmlA ++ pyUpper "png" ++ htmlB ++ d ++ htmlC ++
      fill_background "png" ++ htmlD,
      htmlE ++ f ++ htmlF ++ ("<button onclick=\"download()\">" ++
        button_text "png" ++ "</button>") ++ htmlG, ?_⟩
    simp only [← String.append_assoc]
  · intro d f
    rw [html_content_parts]
    have hm : ("canvas.toDataURL(" ++ "\"" ++ mime "jpg" ++ "\"" ++
        toDataURL_arg2 "jpg" ++ ")") =
        "canvas.toDataURL(\"image/jpeg\", 0.95)" := by
      decide
    rw [hm]
    refine ⟨htmlA ++ pyUpper "jpg" ++ htmlB ++ d ++ htmlC ++
      fill_background "jpg" ++ htmlD,
      htmlE ++ f ++ htmlF ++ ("<button onclick=\"download()\">" ++
        button_text "jpg" ++ "</button>") ++ htmlG, ?_⟩
    simp only [← String.append_assoc]

/-- C7: for each accepted format, the visible button label embedded by
`generate_html` is exactly the label text `auto_download` locates and clicks
(through its `text=` selector), and the document indeed contains a button
bearing that label. -/
theorem C7_button_label_agreement (fmt : String)
    (h : fmt = "png" ∨ fmt = "jpg") :
    button_text fmt = auto_download_button_text fmt ∧
    click_selector fmt = "text=" ++ button_text fmt ∧
    ∀ d f, ∃ pre post, html_content d f fmt =
      pre ++ ("<button onclick=\"download()\">" ++ button_text fmt ++
        "</button>") ++ post := by
  refine ⟨rfl, rfl, ?_⟩
  intro d f
  rw [html_content_parts]
  refine ⟨htmlA ++ pyUpper fmt ++ htmlB ++ d ++ htmlC ++
    fill_background fmt ++ htmlD ++ ("canvas.toDataURL(" ++ "\"" ++
      mime fmt ++ "\"" ++ toDataURL_arg2 fmt ++ ")") ++ htmlE ++ f ++ htmlF,
    htmlG, ?_⟩
  simp only [← String.append_assoc]

/-- C7 witness: the label agreement at the accepted format `png`. -/
theorem C7_button_label_agreement_witness :
    button_text "png" = auto_download_button_text "png" ∧
    click_selector "png" = "text=" ++ button_text "png" ∧
    ∀ d f, ∃ pre post, html_content d f "png" =
      pre ++ ("<button onclick=\"download()\">" ++ button_text "png" ++
        "</button>") ++ post :=
  C7_button_label_agreement "png" (Or.inl rfl)

/-- C9 counterexample: for the format string `webp`, `generate_html` picks
the JPEG media type, the JPG button label and an empty fill slot, but the
quality factor `0.95` is NOT passed: the concrete webp document decomposes
so that its whole export script segment carries the bare call
`canvas.toDataURL("image/jpeg")`, and the string `0.95` occurs nowhere in
that segment — contradicting the claim that the webp document carries the
quality factor. -/
theorem C9_webp_quality_not_passed :
    mime "webp" = "image/jpeg" ∧ quality "webp" = "0.95" ∧
    toDataURL_arg2 "webp" = "" ∧
    button_text "webp" = "JPGとして保存" ∧
    fill_background "webp" = "" ∧
    html_content "d" "o.webp" "webp" =
      (htmlA ++ pyUpper "webp" ++ htmlB ++ "d") ++
      (htmlC ++ fill_background "webp" ++ htmlD ++
        "canvas.toDataURL(\"image/jpeg\")" ++ htmlE) ++
      ("o.webp" ++ htmlF ++ ("<button onclick=\"download()\">" ++
        button_text "webp" ++ "</button>") ++ htmlG) ∧
    ¬ List.IsInfix "0.95".data
      (htmlC ++ fill_background "webp" ++ htmlD ++
        "canvas.toDataURL(\"image/jpeg\")" ++ htmlE).data := by
  refine ⟨by decide, by decide, by decide, by decide, by decide, ?_,
    by decide⟩
  rw [html_content_parts]
  have hm : ("canvas.toDataURL(" ++ "\"" ++ mime "webp" ++ "\"" ++
      toDataURL_arg2 "webp" ++ ")") =
      "canvas.toDataURL(\"image/jpeg\")" := by decide
  rw [hm]
  simp only [← String.append_assoc]

/-- C9 (amended): for every format other than `png`, `generate_html`
produces a JPEG-style document — media type `image/jpeg`, quality variable
`0.95`, JPG save-button label — but the quality factor is passed to the
export call only when the format is exactly `jpg`, and the white-background
fill is emitted only when the format is exactly `jpg`; so a format such as
`webp` yields a JPEG export with the codec's default quality and no white
background. -/
theorem C9_non_png_jpeg_defaults (fmt : String) (h : fmt ≠ "png") :
    mime fmt = "image/jpeg" ∧ quality fmt = "0.95" ∧
    button_text fmt = "JPGとして保存" ∧
    (toDataURL_arg2 fmt = ", 0.95" ↔ fmt = "jpg") ∧
    (fill_background fmt = whiteFill ↔ fmt = "jpg") := by
  refine ⟨by simp [mime, h], by simp [quality, h], by simp [button_text, h],
    ?_, ?_⟩
  · by_cases hj : fmt = "jpg"
    · subst hj
      exact iff_of_true (by decide) rfl
    · rw [toDataURL_arg2, if_neg hj]
      exact iff_of_false (by decide) hj
  · by_cases hj : fmt = "jpg"
    · subst hj
      exact iff_of_true (by simp [fill_background]) rfl
    · rw [fill_background, if_neg hj]
      exact iff_of_false (by decide) hj

/-- C9 witness: the amended statement at the concrete format `webp`. -/
theorem C9_non_png_jpeg_defaults_witness :
    mime "webp" = "image/jpeg" ∧ quality "webp" = "0.95" ∧
    button_text "webp" = "JPGとして保存" ∧
    (toDataURL_arg2 "webp" = ", 0.95" ↔ "webp" = "jpg") ∧
    (fill_background "webp" = whiteFill ↔ "webp" = "jpg") :=
  C9_non_png_jpeg_defaults "webp" (by decide)

/-! ### The Renderer/Exporter: `auto_download` (svg2img.py lines 113-168)

The browser-driving calls carry no data the claims depend on beyond their
order and failure behavior, so `auto_download` is modelled as the trace of
external operations it performs, over an environment saying which of the
fallible operations inside the `try` block raise. -/

/-- Which operations of `auto_download`'s `try` block raise an exception. -/
structure BrowserEnv where
  gotoFails : Bool
  clickFails : Bool
  downloadFails : Bool
  saveFails : Bool

/-- The external operations `auto_download` performs, in order. -/
inductive BrowserEv where
  | launch
  | newContext
  | newPage
  | goto
  | click
  | awaitDownload
  | saveAs
  | printSaved
  | contextClose
  | browserClose
deriving DecidableEq

/-- The `try` block (svg2img.py lines 146-160): the operations performed up
to the first failing one, and whether the block completed without an
exception. -/
def autoDownloadTry (env : BrowserEnv) : List BrowserEv × Bool :=
  if env.gotoFails then ([.goto], false)
  else if env.clickFails then ([.goto, .click], false)
  else if env.downloadFails then ([.goto, .click, .awaitDownload], false)
  else if env.saveFails then
    ([.goto, .click, .awaitDownload, .saveAs], false)
  else ([.goto, .click, .awaitDownload, .saveAs, .printSaved], true)

/-- `auto_download` (svg2img.py lines 142-168): browser launch, context and
page creation, the `try` block, and the `finally` block that closes the
context and then the browser; returns the full operation trace and whether
the call returned normally (`false` means the exception propagates to the
caller). -/
def auto_download (env : BrowserEnv) : List BrowserEv × Bool :=
  ([BrowserEv.launch, .newContext, .newPage] ++ (autoDownloadTry env).1 ++
    [.contextClose, .browserClose],
   (autoDownloadTry env).2)

/-- C8: on every exit path of `auto_download` — normal completion or an
exception raised during navigation, click, or download handling — the trace
ends with closing the browser context and then the browser, in that order,
and neither close happens earlier. -/
theorem C8_teardown_on_every_path (env : BrowserEnv) :
    ∃ pre, (auto_download env).1 = pre ++ [.contextClose, .browserClose] ∧
      BrowserEv.contextClose ∉ pre ∧ BrowserEv.browserClose ∉ pre := by
  refine ⟨[BrowserEv.launch, .newContext, .newPage] ++
    (autoDownloadTry env).1, by simp [auto_download], ?_, ?_⟩ <;>
    · unfold autoDownloadTry
      repeat' split
      all_goals decide

/-! ### The per-format loop of `__main__` (svg2img.py lines 170-202)

The whole loop sits inside a single `try` whose `except` prints the error
and ends the run. The environment says, per format, whether the
Renderer/Exporter step raises and whether each cleanup step raises. -/

/-- Which per-format external steps of the main loop raise. -/
structure RunEnv where
  renderFails : String → Bool
  trashFails : String → Bool
  removeFails : String → Bool

/-- The observable events of a run of the main loop. -/
inductive RunEv where
  | invalidWarn (fmt : String)
  | generateHtml (fmt : String)
  | autoDownloadOk (fmt : String)
  | autoDownloadRaise (fmt : String)
  | trashed (fmt : String)
  | trashWarn (fmt : String)
  | removed (fmt : String)
  | removeFailWarn (fmt : String)
  | printError
deriving DecidableEq

/-- Cleanup of one format's temporary HTML file (svg2img.py lines 191-199):
`send2trash`, on failure warn and `os.remove`, on failure again warn and
leave the file; never raises past this block. -/
def cleanupEvents (env : RunEnv) (fmt : String) : List RunEv :=
  if env.trashFails fmt then
    if env.removeFails fmt then [.trashWarn fmt, .removeFailWarn fmt]
    else [.trashWarn fmt, .removed fmt]
  else [.trashed fmt]

/-- The `for output_format in OUTPUT_FORMATS` loop inside the single
top-level `try` (svg2img.py lines 180-202): invalid formats are skipped with
a warning; for a valid format the HTML is generated and `auto_download`
runs; if it raises, the exception escapes the loop to the `except` on line
201, which prints the error — the remaining formats are never processed and
the raising format's cleanup is skipped; otherwise cleanup runs and the loop
continues. -/
def mainLoop (env : RunEnv) : List String → List RunEv
  | [] => []
  | fmt :: rest =>
      if fmt = "png" ∨ fmt = "jpg" then
        if env.renderFails fmt then
          [.generateHtml fmt, .autoDownloadRaise fmt, .printError]
        else
          .generateHtml fmt :: .autoDownloadOk fmt ::
            (cleanupEvents env fmt ++ mainLoop env rest)
      else .invalidWarn fmt :: mainLoop env rest

/-- C1 counterexample: with both formats requested and the png
Renderer/Exporter step failing, the run ends at the top-level `except`:
jpg is never attempted — no HTML is generated for it and no download runs —
contradicting the claim that remaining formats are still attempted. -/
theorem C1_png_failure_aborts_jpg :
    mainLoop ⟨fun f => f == "png", fun _ => false, fun _ => false⟩
        ["png", "jpg"] =
      [.generateHtml "png", .autoDownloadRaise "png", .printError] ∧
    RunEv.generateHtml "jpg" ∉
      mainLoop ⟨fun f => f == "png", fun _ => false, fun _ => false⟩
        ["png", "jpg"] ∧
    RunEv.autoDownloadOk "jpg" ∉
      mainLoop ⟨fun f => f == "png", fun _ => false, fun _ => false⟩
        ["png", "jpg"] := by
  refine ⟨by decide, by decide, by decide⟩

/-- C1 (amended): a failure during one format's Renderer/Exporter step is
caught at the top level and printed, but it is fatal to the whole run, not
only to that format: the loop body's exception escapes the single `try`
around the loop, so the remaining requested formats are not attempted (and
the failing format's cleanup is skipped). -/
theorem C1_render_failure_aborts_run (env : RunEnv) (fmt : String)
    (rest : List String) (hv : fmt = "png" ∨ fmt = "jpg")
    (hf : env.renderFails fmt = true) :
    mainLoop env (fmt :: rest) =
      [.generateHtml fmt, .autoDownloadRaise fmt, .printError] := by
  rw [mainLoop, if_pos hv, if_pos hf]

/-- C1 witness: the amended abort behavior at a concrete run whose only
format, jpg, fails. -/
theorem C1_render_failure_aborts_run_witness :
    mainLoop ⟨fun f => f == "jpg", fun _ => false, fun _ => false⟩ ["jpg"] =
      [.generateHtml "jpg", .autoDownloadRaise "jpg", .printError] :=
  C1_render_failure_aborts_run
    ⟨fun f => f == "jpg", fun _ => false, fun _ => false⟩ "jpg" []
    (Or.inr rfl) (by decide)

/-- C2 counterexample: when the png Renderer/Exporter step raises, the
run moves to the top-level `except` and png's temporary HTML file is NOT
removed: no trash, delete, or leave-with-warning event occurs —
contradicting the claim that cleanup happens whether the step returned
normally or raised. -/
theorem C2_no_cleanup_on_render_failure :
    mainLoop ⟨fun f => f == "png", fun _ => false, fun _ => false⟩ ["png"] =
      [.generateHtml "png", .autoDownloadRaise "png", .printError] ∧
    RunEv.trashed "png" ∉
      mainLoop ⟨fun f => f == "png", fun _ => false, fun _ => false⟩
        ["png"] ∧
    RunEv.trashWarn "png" ∉
      mainLoop ⟨fun f => f == "png", fun _ => false, fun _ => false⟩
        ["png"] ∧
    RunEv.removed "png" ∉
      mainLoop ⟨fun f => f == "png", fun _ => false, fun _ => false⟩
        ["png"] ∧
    RunEv.removeFailWarn "png" ∉
      mainLoop ⟨fun f => f == "png", fun _ => false, fun _ => false⟩
        ["png"] := by
  refine ⟨by decide, by decide, by decide, by decide, by decide⟩

/-- C2 (amended): the temporary HTML file is removed only when the format's
Renderer/Exporter step returns normally — then trash is tried, falling back
to deletion, falling back to a leave-in-place warning, all non-fatal, and
the run moves on to the next format; when the step raises, cleanup is
skipped entirely and the file is left behind. -/
theorem C2_cleanup_iff_render_success (env : RunEnv) (fmt : String)
    (rest : List String) (hv : fmt = "png" ∨ fmt = "jpg") :
    (env.renderFails fmt = false →
      mainLoop env (fmt :: rest) =
        .generateHtml fmt :: .autoDownloadOk fmt ::
          (cleanupEvents env fmt ++ mainLoop env rest) ∧
      (cleanupEvents env fmt = [.trashed fmt] ∨
       cleanupEvents env fmt = [.trashWarn fmt, .removed fmt] ∨
       cleanupEvents env fmt = [.trashWarn fmt, .removeFailWarn fmt])) ∧
    (env.renderFails fmt = true →
      mainLoop env (fmt :: rest) =
        [.generateHtml fmt, .autoDownloadRaise fmt, .printError] ∧
      RunEv.trashed fmt ∉ mainLoop env (fmt :: rest) ∧
      RunEv.trashWarn fmt ∉ mainLoop env (fmt :: rest) ∧
      RunEv.removed fmt ∉ mainLoop env (fmt :: rest)) := by
  constructor
  · intro hok
    constructor
    · rw [mainLoop, if_pos hv, hok]
      simp
    · unfold cleanupEvents
      repeat' split
      · right; right; rfl
      · right; left; rfl
      · left; rfl
  · intro hf
    have ht : mainLoop env (fmt :: rest) =
        [.generateHtml fmt, .autoDownloadRaise fmt, .printError] := by
      rw [mainLoop, if_pos hv, if_pos hf]
    rw [ht]
    refine ⟨rfl, by simp, by simp, by simp⟩

/-- C2 witness: the amended cleanup behavior at a concrete run where png
succeeds and trashing works. -/
theorem C2_cleanup_iff_render_success_witness :
    ((fun _ : String => false) "png" = false →
      mainLoop ⟨fun _ => false, fun _ => false, fun _ => false⟩ ["png"] =
        .generateHtml "png" :: .autoDownloadOk "png" ::
          (cleanupEvents ⟨fun _ => false, fun _ => false, fun _ => false⟩
            "png" ++
           mainLoop ⟨fun _ => false, fun _ => false, fun _ => false⟩ []) ∧
      (cleanupEvents ⟨fun _ => false, fun _ => false, fun _ => false⟩ "png" =
        [.trashed "png"] ∨
       cleanupEvents ⟨fun _ => false, fun _ => false, fun _ => false⟩ "png" =
        [.trashWarn "png", .removed "png"] ∨
       cleanupEvents ⟨fun _ => false, fun _ => false, fun _ => false⟩ "png" =
        [.trashWarn "png", .removeFailWarn "png"])) ∧
    ((fun _ : String => false) "png" = true →
      mainLoop ⟨fun _ => false, fun _ => false, fun _ => false⟩ ["png"] =
        [.generateHtml "png", .autoDownloadRaise "png", .printError] ∧
      RunEv.trashed "png" ∉
        mainLoop ⟨fun _ => false, fun _ => false, fun _ => false⟩ ["png"] ∧
      RunEv.trashWarn "png" ∉
        mainLoop ⟨fun _ => false, fun _ => false, fun _ => false⟩ ["png"] ∧
      RunEv.removed "png" ∉
        mainLoop ⟨fun _ => false, fun _ => false, fun _ => false⟩ ["png"]) :=
  C2_cleanup_iff_render_success
    ⟨fun _ => false, fun _ => false, fun _ => false⟩ "png" [] (Or.inl rfl)

end Svg2Img
